import Mathlib

/-!
Shallow embedding of the music-dl command-line tool (src/main.py).

The program downloads YouTube audio as MP3 by delegating to an external
extraction library.  All external effects are made explicit:

* `Env` supplies the outcomes of every external interaction: presence of
  the `ffmpeg`/`ffprobe` binaries on the search path, the fault (if any)
  raised by `os.makedirs`, the result of the information-only probe
  (`extract_info` with `download=False`), the interactive answer read by
  `input`, and the result of the real download (`ydl.download`).
* The print stream is a list of structured `Line` values; `render` maps
  each one to the exact string printed by the Python code.
* The filesystem is reduced to the single fact the program inspects and
  mutates: whether the output directory exists (one `Bool`).
* Python exceptions are the two classes the program distinguishes:
  `yt_dlp.DownloadError` and every other `Exception`.  A fault that the
  program does not catch appears as the `Except.error` of the embedding;
  a normal return is `Except.ok`.
-/

namespace MusicDl

/-- The two exception classes distinguished by `download_audio`:
`yt_dlp.DownloadError`, and any other Python `Exception`.  The payload
is `str(e)`. -/
inductive PyExc where
  | downloadError (msg : String)
  | otherError (msg : String)
deriving DecidableEq

/-- The result dictionary returned by the probe (`extract_info` with
`download=False`).  `entries = none` models a dict without an
`entries` key (a single video); `entries = some es` models a playlist,
where each element is either a resolvable entry descriptor (modelled by
its title) or `None` (an unavailable placeholder). -/
structure InfoDict where
  title : Option String
  entries : Option (List (Option String))
deriving DecidableEq

/-- One line of program output.  Each constructor corresponds to one
`print` in src/main.py; `render` gives the exact printed string. -/
inductive Line where
  | ffmpegError
  | ffmpegInstallHeader
  | ffmpegHintWindows
  | ffmpegHintMac
  | ffmpegHintLinux
  | ffmpegRequired
  | analyzing
  | foundPlaylist (title : String)
  | totalVideos (n : Nat)
  | availableVideos (n : Nat)
  | unavailableNote (n : Nat)
  | downloadingPlaylist
  | foundVideo (title : String)
  | downloadingSingle
  | cancelled
  | completed (path : String)
  | downloadError (msg : String)
  | unexpectedError (msg : String)
  | urlError
  | processingUrl (url : String)
  | outputDirLine (dir : String)
  | separator
  | allCompleted
  | downloadFailed
deriving DecidableEq

/-- Exact text of each printed line, transcribed from the `print`
calls in src/main.py. -/
def render : Line → String
  | Line.ffmpegError => "❌ Error: FFmpeg is not installed or not in PATH!"
  | Line.ffmpegInstallHeader => "\nPlease install FFmpeg:"
  | Line.ffmpegHintWindows => "  • Windows: Download from https://ffmpeg.org/download.html"
  | Line.ffmpegHintMac => "  • Mac: brew install ffmpeg"
  | Line.ffmpegHintLinux => "  • Linux: sudo apt install ffmpeg (Ubuntu/Debian)"
  | Line.ffmpegRequired => "\nFFmpeg is required to convert audio to MP3 format."
  | Line.analyzing => "Analyzing URL..."
  | Line.foundPlaylist t => "Found playlist: " ++ t
  | Line.totalVideos n => "Total videos: " ++ toString n
  | Line.availableVideos n => "Available videos: " ++ toString n
  | Line.unavailableNote n =>
      "⚠️  Note: " ++ toString n ++ " videos are unavailable and will be skipped"
  | Line.downloadingPlaylist => "Downloading playlist..."
  | Line.foundVideo t => "Found video: " ++ t
  | Line.downloadingSingle => "Downloading single video..."
  | Line.cancelled => "Download cancelled."
  | Line.completed p => "\n✅ Download completed! Files saved to: " ++ p
  | Line.downloadError m => "❌ Download error: " ++ m
  | Line.unexpectedError m => "❌ Unexpected error: " ++ m
  | Line.urlError => "Error: Please provide a valid YouTube URL"
  | Line.processingUrl u => "Processing URL: " ++ u
  | Line.outputDirLine d => "Output directory: " ++ d
  | Line.separator => "--------------------------------------------------"
  | Line.allCompleted => "\n✅ All downloads completed successfully!"
  | Line.downloadFailed => "\n❌ Download failed!"

/-- The environment of one invocation: outcomes of every external
interaction the program performs. -/
structure Env where
  /-- Whether the search-path lookup finds the ffmpeg binary. -/
  ffmpegWhich : Bool
  /-- Whether the search-path lookup finds the ffprobe binary. -/
  ffprobeWhich : Bool
  /-- Fault raised by `os.makedirs(output_dir)` when it is invoked
  (e.g. `PermissionError`); `none` means the call succeeds. -/
  mkdirFault : Option PyExc
  /-- Outcome of `ydl.extract_info(url, download=False)`. -/
  probe : String → Except PyExc InfoDict
  /-- The answer read by `input(...)` at the confirmation prompt. -/
  userInput : String
  /-- Outcome of `ydl.download([url])`. -/
  fetch : String → Except PyExc Unit
  /-- Models os.path.abspath. -/
  abspath : String → String

/-- What happened inside the `try` block of `download_audio`
(src/main.py lines 58-91): lines printed, whether the confirmation
prompt was issued, whether `ydl.download` was invoked, the exception
escaping the block if any, and the value a normal exit returns with
(`False` on decline, `True` after the success print). -/
structure TryOut where
  output : List Line
  promptIssued : Bool
  fetchCalled : Bool
  raised : Option PyExc
  retVal : Bool
deriving DecidableEq

/-- Outcome of one `download_audio` call that returned normally: its
Boolean return value, the print stream, whether the output directory
exists afterwards, and which external calls were performed. -/
structure DAResult where
  retVal : Bool
  output : List Line
  dirExists : Bool
  mkdirCalled : Bool
  probeCalled : Bool
  promptIssued : Bool
  fetchCalled : Bool
deriving DecidableEq

/-- Embeds check_ffmpeg (src/main.py lines 8-18): fails iff `ffmpeg` or
`ffprobe` is missing from the search path, printing install hints on
failure. -/
def check_ffmpeg (env : Env) : Bool × List Line :=
  if env.ffmpegWhich = false ∨ env.ffprobeWhich = false then
    (false,
      [Line.ffmpegError, Line.ffmpegInstallHeader, Line.ffmpegHintWindows,
       Line.ffmpegHintMac, Line.ffmpegHintLinux, Line.ffmpegRequired])
  else
    (true, [])

/-- The tail of the `try` block shared by the playlist and
single-video branches: `ydl.download([url])` followed on success by the
completion print (src/main.py lines 89-91). -/
def do_fetch (env : Env) (url output_dir : String) (outSoFar : List Line)
    (promptIssued : Bool) : TryOut :=
  match env.fetch url with
  | Except.error e =>
      { output := outSoFar, promptIssued := promptIssued, fetchCalled := true,
        raised := some e, retVal := false }
  | Except.ok _ =>
      { output := outSoFar ++ [Line.completed (env.abspath output_dir)],
        promptIssued := promptIssued, fetchCalled := true,
        raised := none, retVal := true }

/-- Models the Python lower() string method on the interactive answer,
character by character (`Char.toLower` lowercases exactly the ASCII
letters, which covers the `y`/`yes` comparison the program performs). -/
def pyLower (s : String) : String := String.mk (s.data.map Char.toLower)

/-- The body of the `try` block of `download_audio` (src/main.py lines
58-91): probe the URL, classify playlist vs single video, report, gate
playlists on confirmation, then download. -/
def try_body (env : Env) (url output_dir : String)
    (skip_confirmation : Bool) : TryOut :=
  match env.probe url with
  | Except.error e =>
      { output := [Line.analyzing], promptIssued := false, fetchCalled := false,
        raised := some e, retVal := false }
  | Except.ok info =>
      match info.entries with
      | some es =>
          let available_count := (es.filter fun e => e.isSome).length
          let total_count := es.length
          let report :=
            [Line.analyzing, Line.foundPlaylist (info.title.getD "Unknown"),
             Line.totalVideos total_count, Line.availableVideos available_count] ++
            (if total_count ≠ available_count then
               [Line.unavailableNote (total_count - available_count)]
             else [])
          if skip_confirmation then
            do_fetch env url output_dir (report ++ [Line.downloadingPlaylist]) false
          else if pyLower env.userInput ∈ (["y", "yes"] : List String) then
            do_fetch env url output_dir (report ++ [Line.downloadingPlaylist]) true
          else
            { output := report ++ [Line.cancelled], promptIssued := true,
              fetchCalled := false, raised := none, retVal := false }
      | none =>
          do_fetch env url output_dir
            [Line.analyzing, Line.foundVideo (info.title.getD "Unknown"),
             Line.downloadingSingle] false

/-- The message printed by the two `except` clauses of `download_audio`
(src/main.py lines 93-98), keyed by exception class. -/
def excLine : PyExc → Line
  | PyExc.downloadError m => Line.downloadError m
  | PyExc.otherError m => Line.unexpectedError m

/-- Run the `try` block and apply the two `except` clauses
(src/main.py lines 58-98): a raised exception is converted to a
diagnostic line plus return value `False`.  `mkCalled` records whether
`os.makedirs` ran earlier. -/
def afterMkdir (env : Env) (url output_dir : String) (skip_confirmation : Bool)
    (mkCalled : Bool) : DAResult :=
  let t := try_body env url output_dir skip_confirmation
  match t.raised with
  | some e =>
      { retVal := false, output := t.output ++ [excLine e], dirExists := true,
        mkdirCalled := mkCalled, probeCalled := true,
        promptIssued := t.promptIssued, fetchCalled := t.fetchCalled }
  | none =>
      { retVal := t.retVal, output := t.output, dirExists := true,
        mkdirCalled := mkCalled, probeCalled := true,
        promptIssued := t.promptIssued, fetchCalled := t.fetchCalled }

/-- Embeds download_audio (src/main.py lines 20-100).  `dirExists0` is
whether the output directory exists on entry (`os.path.exists`).  The
`Except.error` case is an exception that escapes the function: only
`os.makedirs` (lines 29-30) can produce one, because it runs before the
`try` block. -/
def download_audio (env : Env) (dirExists0 : Bool) (url output_dir : String)
    (skip_confirmation : Bool) : Except PyExc DAResult :=
  match check_ffmpeg env with
  | (false, out) =>
      Except.ok
        { retVal := false, output := out, dirExists := dirExists0,
          mkdirCalled := false, probeCalled := false, promptIssued := false,
          fetchCalled := false }
  | (true, _) =>
      if dirExists0 then
        Except.ok (afterMkdir env url output_dir skip_confirmation false)
      else
        match env.mkdirFault with
        | some e => Except.error e
        | none => Except.ok (afterMkdir env url output_dir skip_confirmation true)

/-- Whether `needle` occurs as a contiguous run inside `hay` (the
Python substring operator on strings, at the character level). -/
def containsSub (needle : List Char) : List Char → Bool
  | [] => needle.isEmpty
  | c :: cs => needle.isPrefixOf (c :: cs) || containsSub needle cs

/-- Models the Python substring test `needle in hay`. -/
def strContains (hay needle : String) : Bool :=
  containsSub needle.toList hay.toList

/-- Parsed command-line arguments: positional `url`, the output
directory option (default `downloads`), `--no-confirm` (default false). -/
structure Args where
  url : String
  output : String
  no_confirm : Bool

/-- Outcome of one run of `main` that terminated normally (by `return`
or `sys.exit`): the process exit code, the print stream, and which
effects happened. -/
structure MainResult where
  exitCode : Nat
  output : List Line
  orchestratorCalled : Bool
  dirExists : Bool
  mkdirCalled : Bool
  probeCalled : Bool
  fetchCalled : Bool
deriving DecidableEq

/-- Embeds main after argument parsing (src/main.py lines 112-128): shallow
URL validation, echo of the arguments, the `download_audio` call, and
the mapping of its Boolean result to exit code 0 or 1.  An exception
propagating out of `download_audio` propagates out of `main` too
(`Except.error`). -/
def mainRun (env : Env) (dirExists0 : Bool) (args : Args) :
    Except PyExc MainResult :=
  if strContains args.url "youtube.com" = false ∧
      strContains args.url "youtu.be" = false then
    Except.ok
      { exitCode := 1, output := [Line.urlError], orchestratorCalled := false,
        dirExists := dirExists0, mkdirCalled := false, probeCalled := false,
        fetchCalled := false }
  else
    let hdr := [Line.processingUrl args.url, Line.outputDirLine args.output,
      Line.separator]
    match download_audio env dirExists0 args.url args.output args.no_confirm with
    | Except.error e => Except.error e
    | Except.ok r =>
        if r.retVal then
          Except.ok
            { exitCode := 0, output := hdr ++ r.output ++ [Line.allCompleted],
              orchestratorCalled := true, dirExists := r.dirExists,
              mkdirCalled := r.mkdirCalled, probeCalled := r.probeCalled,
              fetchCalled := r.fetchCalled }
        else
          Except.ok
            { exitCode := 1, output := hdr ++ r.output ++ [Line.downloadFailed],
              orchestratorCalled := true, dirExists := r.dirExists,
              mkdirCalled := r.mkdirCalled, probeCalled := r.probeCalled,
              fetchCalled := r.fetchCalled }

/-- A convenient fully-successful environment for concrete witnesses;
individual witnesses override fields. -/
def baseEnv : Env :=
  { ffmpegWhich := true, ffprobeWhich := true, mkdirFault := none,
    probe := fun _ => Except.ok { title := some "Song", entries := none },
    userInput := "", fetch := fun _ => Except.ok (), abspath := fun s => s }

/-- Environment whose probe raises a `yt_dlp.DownloadError`. -/
def probeFailEnv : Env :=
  { baseEnv with probe := fun _ => Except.error (PyExc.downloadError "boom") }

/-- Environment where `ffmpeg` is missing from the search path. -/
def noToolEnv : Env :=
  { baseEnv with ffmpegWhich := false }

/-- Environment where `os.makedirs` would raise (e.g. a
`PermissionError` on the parent directory). -/
def mkdirFailEnv : Env :=
  { baseEnv with mkdirFault := some (PyExc.otherError "Permission denied") }

/-- Environment where both the directory creation and the probe would
fault: `os.makedirs` raises a `PermissionError`, and the probe (when
reached, i.e. when the directory already exists) raises a
`yt_dlp.DownloadError`. -/
def mkdirAndProbeFailEnv : Env :=
  { baseEnv with
    mkdirFault := some (PyExc.otherError "Permission denied"),
    probe := fun _ => Except.error (PyExc.downloadError "boom") }

/-- Environment whose probe returns a five-entry playlist with two
unavailable (`None`) entries, answering `inp` at the prompt. -/
def playlistEnv (inp : String) : Env :=
  { baseEnv with
    probe := fun _ => Except.ok
      { title := some "MyList",
        entries := some [some "a", some "b", some "c", none, none] },
    userInput := inp }

/-- Environment whose probe returns a playlist with an empty entry
list, answering `n` at the prompt. -/
def emptyPlaylistEnv : Env :=
  { baseEnv with
    probe := fun _ => Except.ok { title := some "Empty", entries := some [] },
    userInput := "n" }

/-- The `DAResult` of a fully successful single-video run of `baseEnv`
on the directory `downloads` when the directory already exists. -/
def singleOkRes : DAResult :=
  { retVal := true,
    output := [Line.analyzing, Line.foundVideo "Song", Line.downloadingSingle,
      Line.completed "downloads"],
    dirExists := true, mkdirCalled := false, probeCalled := true,
    promptIssued := false, fetchCalled := true }

/-- The `DAResult` of a `probeFailEnv` run on an existing directory:
the probe raises, the handler prints the diagnostic, `False` returned. -/
def probeFailRes : DAResult :=
  { retVal := false,
    output := [Line.analyzing, Line.downloadError "boom"],
    dirExists := true, mkdirCalled := false, probeCalled := true,
    promptIssued := false, fetchCalled := false }

/-- The `DAResult` of a run whose tool check failed: the install hints
are printed and nothing else happens. -/
def toolFailRes (d : Bool) : DAResult :=
  { retVal := false,
    output := [Line.ffmpegError, Line.ffmpegInstallHeader, Line.ffmpegHintWindows,
      Line.ffmpegHintMac, Line.ffmpegHintLinux, Line.ffmpegRequired],
    dirExists := d, mkdirCalled := false, probeCalled := false,
    promptIssued := false, fetchCalled := false }

end MusicDl

namespace MusicDl

theorem check_ffmpeg_pass (env : Env) (hff : env.ffmpegWhich = true)
    (hfp : env.ffprobeWhich = true) : check_ffmpeg env = (true, []) := by
  simp [check_ffmpeg, hff, hfp]

theorem download_audio_ok (env : Env) (d : Bool) (url dir : String) (sc : Bool)
    (hff : env.ffmpegWhich = true) (hfp : env.ffprobeWhich = true)
    (hmk : d = true ∨ env.mkdirFault = none) :
    download_audio env d url dir sc = Except.ok (afterMkdir env url dir sc (!d)) := by
  rcases hmk with hd | hm
  · subst hd
    simp [download_audio, check_ffmpeg_pass env hff hfp]
  · cases d
    · simp [download_audio, check_ffmpeg_pass env hff hfp, hm]
    · simp [download_audio, check_ffmpeg_pass env hff hfp]

theorem afterMkdir_dirExists (env : Env) (url dir : String) (sc mk : Bool) :
    (afterMkdir env url dir sc mk).dirExists = true := by
  simp only [afterMkdir]
  split <;> rfl

theorem afterMkdir_mkdirCalled (env : Env) (url dir : String) (sc mk : Bool) :
    (afterMkdir env url dir sc mk).mkdirCalled = mk := by
  simp only [afterMkdir]
  split <;> rfl

theorem excLine_ne_unavailableNote (e : PyExc) (n : Nat) :
    excLine e ≠ Line.unavailableNote n := by
  cases e <;> simp [excLine]

theorem unavailableNote_ne_excLine (n : Nat) (e : PyExc) :
    Line.unavailableNote n ≠ excLine e := by
  cases e <;> simp [excLine]

theorem download_audio_toolfail (env : Env) (d : Bool) (url dir : String)
    (sc : Bool) (h : env.ffmpegWhich = false ∨ env.ffprobeWhich = false) :
    download_audio env d url dir sc = Except.ok (toolFailRes d) := by
  have hc : check_ffmpeg env =
      (false, [Line.ffmpegError, Line.ffmpegInstallHeader, Line.ffmpegHintWindows,
        Line.ffmpegHintMac, Line.ffmpegHintLinux, Line.ffmpegRequired]) := by
    simp [check_ffmpeg, h]
  simp [download_audio, hc, toolFailRes]

/-- Claim C5: if the prerequisite tool check fails, `download_audio` returns
failure immediately: the output directory is not created, and neither
the probe nor the download call is performed. -/
theorem c5_tool_check_gate (env : Env) (d : Bool) (url dir : String) (sc : Bool)
    (h : env.ffmpegWhich = false ∨ env.ffprobeWhich = false) :
    ∃ r, download_audio env d url dir sc = Except.ok r ∧ r.retVal = false ∧
      r.mkdirCalled = false ∧ r.dirExists = d ∧ r.probeCalled = false ∧
      r.fetchCalled = false :=
  ⟨toolFailRes d, download_audio_toolfail env d url dir sc h, rfl, rfl, rfl, rfl, rfl⟩

theorem c5_witness :
    (noToolEnv.ffmpegWhich = false ∨ noToolEnv.ffprobeWhich = false) ∧
    (∃ r, download_audio noToolEnv false "https://youtu.be/a" "downloads" false =
        Except.ok r ∧ r.retVal = false ∧ r.mkdirCalled = false ∧
        r.dirExists = false ∧ r.probeCalled = false ∧ r.fetchCalled = false) :=
  ⟨Or.inl rfl,
    c5_tool_check_gate noToolEnv false "https://youtu.be/a" "downloads" false
      (Or.inl rfl)⟩

/-- Claim C9: on every failure path reached after the tool check passes, the
output directory has already been created and persists: a normal
(`Except.ok`) return with `retVal = false` still has `dirExists = true`. -/
theorem c9_dir_persists_on_failure (env : Env) (d : Bool) (url dir : String)
    (sc : Bool) (r : DAResult)
    (hff : env.ffmpegWhich = true) (hfp : env.ffprobeWhich = true)
    (h : download_audio env d url dir sc = Except.ok r)
    (hfail : r.retVal = false) : r.dirExists = true := by
  rw [download_audio, check_ffmpeg_pass env hff hfp] at h
  cases d
  · cases hm : env.mkdirFault with
    | some e => rw [hm] at h; exact absurd h (by simp)
    | none =>
        rw [hm] at h
        simp only [Bool.false_eq_true, if_false] at h
        cases h
        exact afterMkdir_dirExists env url dir sc true
  · simp only [if_true] at h
    cases h
    exact afterMkdir_dirExists env url dir sc false

theorem c9_witness :
    probeFailEnv.ffmpegWhich = true ∧
    download_audio probeFailEnv true "https://youtu.be/a" "downloads" false =
      Except.ok probeFailRes ∧
    probeFailRes.retVal = false ∧ probeFailRes.dirExists = true :=
  ⟨rfl, rfl, rfl,
    c9_dir_persists_on_failure probeFailEnv true "https://youtu.be/a" "downloads"
      false probeFailRes rfl rfl rfl rfl⟩

/-- Claim C7: directory creation is idempotent: if a first `download_audio`
call leaves the output directory in place, a second call on the
now-existing directory never faults at the creation step (it does not
even invoke `os.makedirs`) and leaves the directory in place. -/
theorem c7_mkdir_idempotent (env1 env2 : Env) (d : Bool) (url1 url2 dir : String)
    (sc1 sc2 : Bool) (r1 : DAResult)
    (h1 : download_audio env1 d url1 dir sc1 = Except.ok r1)
    (h2 : r1.dirExists = true) :
    ∃ r2, download_audio env2 r1.dirExists url2 dir sc2 = Except.ok r2 ∧
      r2.mkdirCalled = false ∧ r2.dirExists = true := by
  rw [h2]
  by_cases hf : env2.ffmpegWhich = true ∧ env2.ffprobeWhich = true
  · refine ⟨afterMkdir env2 url2 dir sc2 false, ?_,
      afterMkdir_mkdirCalled env2 url2 dir sc2 false,
      afterMkdir_dirExists env2 url2 dir sc2 false⟩
    have h := download_audio_ok env2 true url2 dir sc2 hf.1 hf.2 (Or.inl rfl)
    simpa using h
  · have hc : env2.ffmpegWhich = false ∨ env2.ffprobeWhich = false := by
      rcases not_and_or.mp hf with h | h
      · exact Or.inl (by simpa using h)
      · exact Or.inr (by simpa using h)
    exact ⟨toolFailRes true, download_audio_toolfail env2 true url2 dir sc2 hc,
      rfl, rfl⟩

/-- Claim C1: for a collection probe result with `skip_confirmation = false`,
any interactive answer other than a case-insensitive `y`/`yes` makes
`download_audio` print the cancellation notice, return failure, and
never perform the download (fetch) call. -/
theorem c1_decline_cancels (env : Env) (d : Bool) (url dir : String)
    (title : Option String) (es : List (Option String))
    (hff : env.ffmpegWhich = true) (hfp : env.ffprobeWhich = true)
    (hmk : d = true ∨ env.mkdirFault = none)
    (hp : env.probe url = Except.ok { title := title, entries := some es })
    (hy : pyLower env.userInput ≠ "y") (hyes : pyLower env.userInput ≠ "yes") :
    ∃ r, download_audio env d url dir false = Except.ok r ∧ r.retVal = false ∧
      r.fetchCalled = false ∧ Line.cancelled ∈ r.output := by
  rw [download_audio_ok env d url dir false hff hfp hmk]
  refine ⟨_, rfl, ?_, ?_, ?_⟩ <;>
    simp [afterMkdir, try_body, hp, hy, hyes]

theorem c1_witness :
    pyLower (playlistEnv "n").userInput ≠ "y" ∧
    pyLower (playlistEnv "n").userInput ≠ "yes" ∧
    (∃ r, download_audio (playlistEnv "n") false "https://youtube.com/playlist"
        "downloads" false = Except.ok r ∧ r.retVal = false ∧
      r.fetchCalled = false ∧ Line.cancelled ∈ r.output) :=
  ⟨by decide, by decide,
    c1_decline_cancels (playlistEnv "n") false "https://youtube.com/playlist"
      "downloads" (some "MyList") [some "a", some "b", some "c", none, none]
      rfl rfl (Or.inr rfl) rfl (by decide) (by decide)⟩

/-- Claim C8: for a single-item probe result (no `entries` field), no
confirmation prompt is ever issued, for either value of
`skip_confirmation`, and the download call is performed. -/
theorem c8_single_no_prompt (env : Env) (d : Bool) (url dir : String)
    (sc : Bool) (title : Option String)
    (hff : env.ffmpegWhich = true) (hfp : env.ffprobeWhich = true)
    (hmk : d = true ∨ env.mkdirFault = none)
    (hp : env.probe url = Except.ok { title := title, entries := none }) :
    ∃ r, download_audio env d url dir sc = Except.ok r ∧
      r.promptIssued = false ∧ r.fetchCalled = true := by
  rw [download_audio_ok env d url dir sc hff hfp hmk]
  refine ⟨_, rfl, ?_, ?_⟩ <;>
    rcases hfe : env.fetch url with e | u <;>
      simp [afterMkdir, try_body, do_fetch, hp, hfe]

theorem c8_witness :
    (∃ r, download_audio baseEnv false "https://youtu.be/a" "downloads" true =
        Except.ok r ∧ r.promptIssued = false ∧ r.fetchCalled = true) :=
  c8_single_no_prompt baseEnv false "https://youtu.be/a" "downloads" true
    (some "Song") rfl rfl (Or.inr rfl) rfl

/-- Claim C10: a probe result with a present but empty `entries` list is
classified as a playlist: total and available counts are both reported
as 0, no unavailability warning is printed, and with
`skip_confirmation = false` the confirmation prompt is still issued. -/
theorem c10_empty_playlist (env : Env) (d : Bool) (url dir : String)
    (title : Option String)
    (hff : env.ffmpegWhich = true) (hfp : env.ffprobeWhich = true)
    (hmk : d = true ∨ env.mkdirFault = none)
    (hp : env.probe url = Except.ok { title := title, entries := some [] }) :
    ∃ r, download_audio env d url dir false = Except.ok r ∧
      Line.foundPlaylist (title.getD "Unknown") ∈ r.output ∧
      Line.totalVideos 0 ∈ r.output ∧ Line.availableVideos 0 ∈ r.output ∧
      (∀ n, Line.unavailableNote n ∉ r.output) ∧
      r.promptIssued = true := by
  rw [download_audio_ok env d url dir false hff hfp hmk]
  refine ⟨_, rfl, ?_, ?_, ?_, ?_, ?_⟩ <;>
    by_cases hin : pyLower env.userInput ∈ (["y", "yes"] : List String) <;>
      rcases hfe : env.fetch url with e | u <;>
        simp [afterMkdir, try_body, do_fetch, hp, hin, hfe,
          excLine_ne_unavailableNote, unavailableNote_ne_excLine]

theorem c10_witness :
    (∃ r, download_audio emptyPlaylistEnv false "https://youtube.com/playlist"
        "downloads" false = Except.ok r ∧
      Line.foundPlaylist "Empty" ∈ r.output ∧
      Line.totalVideos 0 ∈ r.output ∧ Line.availableVideos 0 ∈ r.output ∧
      (∀ n, Line.unavailableNote n ∉ r.output) ∧
      r.promptIssued = true) :=
  c10_empty_playlist emptyPlaylistEnv false "https://youtube.com/playlist"
    "downloads" (some "Empty") rfl rfl (Or.inr rfl) rfl

/-- Claim C2: for every collection probe result, `download_audio` reports the
total entry count and the count of non-null entries, and prints the
unavailability warning naming total minus available exactly when the
two counts differ; the warning renders to the exact printed text. -/
theorem c2_counts_and_warning (env : Env) (d : Bool) (url dir : String)
    (sc : Bool) (title : Option String) (es : List (Option String))
    (hff : env.ffmpegWhich = true) (hfp : env.ffprobeWhich = true)
    (hmk : d = true ∨ env.mkdirFault = none)
    (hp : env.probe url = Except.ok { title := title, entries := some es }) :
    ∃ r, download_audio env d url dir sc = Except.ok r ∧
      Line.totalVideos es.length ∈ r.output ∧
      Line.availableVideos (es.filter fun e => e.isSome).length ∈ r.output ∧
      (Line.unavailableNote (es.length - (es.filter fun e => e.isSome).length) ∈
          r.output ↔ es.length ≠ (es.filter fun e => e.isSome).length) ∧
      render (Line.unavailableNote
          (es.length - (es.filter fun e => e.isSome).length)) =
        "⚠️  Note: " ++ toString (es.length - (es.filter fun e => e.isSome).length)
          ++ " videos are unavailable and will be skipped" := by
  rw [download_audio_ok env d url dir sc hff hfp hmk]
  refine ⟨_, rfl, ?_, ?_, ?_, rfl⟩ <;>
    by_cases hTA : es.length = (es.filter fun e => e.isSome).length <;>
      cases sc <;>
        by_cases hin : pyLower env.userInput ∈ (["y", "yes"] : List String) <;>
          rcases hfe : env.fetch url with e | u <;>
            simp [afterMkdir, try_body, do_fetch, hp, hTA, hin, hfe,
              excLine_ne_unavailableNote, unavailableNote_ne_excLine]

theorem c2_witness :
    (playlistEnv "y").probe "https://youtube.com/playlist" = Except.ok
      { title := some "MyList",
        entries := some [some "a", some "b", some "c", none, none] } ∧
    (∃ r, download_audio (playlistEnv "y") false "https://youtube.com/playlist"
        "downloads" false = Except.ok r ∧
      Line.totalVideos
          ([some "a", some "b", some "c", none, none] : List (Option String)).length
        ∈ r.output ∧
      Line.availableVideos
          (([some "a", some "b", some "c", none, none] : List (Option String)).filter
            fun e => e.isSome).length ∈ r.output ∧
      (Line.unavailableNote
          (([some "a", some "b", some "c", none, none] : List (Option String)).length -
            (([some "a", some "b", some "c", none, none] : List (Option String)).filter
              fun e => e.isSome).length) ∈ r.output ↔
        ([some "a", some "b", some "c", none, none] : List (Option String)).length ≠
          (([some "a", some "b", some "c", none, none] : List (Option String)).filter
            fun e => e.isSome).length) ∧
      render (Line.unavailableNote
          (([some "a", some "b", some "c", none, none] : List (Option String)).length -
            (([some "a", some "b", some "c", none, none] : List (Option String)).filter
              fun e => e.isSome).length)) =
        "⚠️  Note: " ++
          toString
            (([some "a", some "b", some "c", none, none] : List (Option String)).length -
              (([some "a", some "b", some "c", none, none] : List (Option String)).filter
                fun e => e.isSome).length) ++
          " videos are unavailable and will be skipped") :=
  ⟨rfl,
    c2_counts_and_warning (playlistEnv "y") false "https://youtube.com/playlist"
      "downloads" false (some "MyList") [some "a", some "b", some "c", none, none]
      rfl rfl (Or.inr rfl) rfl⟩

theorem render_labels_distinct (m m2 : String) :
    render (Line.downloadError m) ≠ render (Line.unexpectedError m2) := by
  intro h
  have h2 := congrArg String.data h
  rw [show render (Line.downloadError m) = "❌ Download error: " ++ m from rfl,
    show render (Line.unexpectedError m2) = "❌ Unexpected error: " ++ m2 from rfl,
    String.data_append, String.data_append] at h2
  simp at h2

/-- Claim C6: an exception escaping the probe or the download call — whether
it is the download class (`yt_dlp.DownloadError`) or any other class —
makes `download_audio` return failure and print a diagnostic, and the
diagnostics of the two classes are distinct for every pair of
messages (prefixes `❌ Download error:` vs `❌ Unexpected error:`). -/
theorem c6_error_classes_distinguished (env : Env) (d : Bool) (url dir : String)
    (sc : Bool) (e : PyExc)
    (hff : env.ffmpegWhich = true) (hfp : env.ffprobeWhich = true)
    (hmk : d = true ∨ env.mkdirFault = none)
    (hr : (try_body env url dir sc).raised = some e) :
    ∃ r, download_audio env d url dir sc = Except.ok r ∧ r.retVal = false ∧
      excLine e ∈ r.output ∧
      ∀ m m2, render (Line.downloadError m) ≠ render (Line.unexpectedError m2) := by
  rw [download_audio_ok env d url dir sc hff hfp hmk]
  exact ⟨_, rfl, by simp [afterMkdir, hr], by simp [afterMkdir, hr],
    fun m m2 => render_labels_distinct m m2⟩

theorem c6_witness :
    (try_body probeFailEnv "https://youtu.be/a" "downloads" false).raised =
      some (PyExc.downloadError "boom") ∧
    (∃ r, download_audio probeFailEnv true "https://youtu.be/a" "downloads" false =
        Except.ok r ∧ r.retVal = false ∧
      excLine (PyExc.downloadError "boom") ∈ r.output ∧
      ∀ m m2, render (Line.downloadError m) ≠ render (Line.unexpectedError m2)) :=
  ⟨rfl,
    c6_error_classes_distinguished probeFailEnv true "https://youtu.be/a"
      "downloads" false (PyExc.downloadError "boom") rfl rfl (Or.inl rfl) rfl⟩

/-- Claim C3 (amended): every exception raised inside the `try` block — by
the probe, the confirmation read, or the download call — is caught and
converted into return value `False` plus a printed diagnostic; but a
fault raised by `os.makedirs`, which runs before the `try` block,
propagates out of `download_audio` uncaught. -/
theorem c3_try_block_catches (env : Env) (url dir : String) (sc : Bool)
    (hff : env.ffmpegWhich = true) (hfp : env.ffprobeWhich = true) :
    (∀ d, (d = true ∨ env.mkdirFault = none) →
      ∃ r, download_audio env d url dir sc = Except.ok r ∧
        ∀ e, (try_body env url dir sc).raised = some e →
          r.retVal = false ∧ excLine e ∈ r.output) ∧
    (∀ e, env.mkdirFault = some e →
      download_audio env false url dir sc = Except.error e) := by
  constructor
  · intro d hmk
    rw [download_audio_ok env d url dir sc hff hfp hmk]
    refine ⟨_, rfl, ?_⟩
    intro e hr
    exact ⟨by simp [afterMkdir, hr], by simp [afterMkdir, hr]⟩
  · intro e hm
    simp [download_audio, check_ffmpeg_pass env hff hfp, hm]

/-- Counterexample to claim C3: with `ffmpeg` present but `os.makedirs` raising
a `PermissionError` on a missing output directory, `download_audio`
does not return a Boolean: the fault propagates out uncaught. -/
theorem c3_counterexample :
    download_audio mkdirAndProbeFailEnv false "https://youtu.be/a" "downloads"
      false = Except.error (PyExc.otherError "Permission denied") ∧
    ∀ r, download_audio mkdirAndProbeFailEnv false "https://youtu.be/a"
      "downloads" false ≠ Except.ok r := by
  refine ⟨rfl, ?_⟩
  intro r h
  rw [show download_audio mkdirAndProbeFailEnv false "https://youtu.be/a"
      "downloads" false = Except.error (PyExc.otherError "Permission denied")
    from rfl] at h
  exact Except.noConfusion h

theorem c3_witness :
    (∀ d, (d = true ∨ mkdirAndProbeFailEnv.mkdirFault = none) →
      ∃ r, download_audio mkdirAndProbeFailEnv d "https://youtu.be/a" "downloads"
          false = Except.ok r ∧
        ∀ e, (try_body mkdirAndProbeFailEnv "https://youtu.be/a" "downloads"
            false).raised = some e →
          r.retVal = false ∧ excLine e ∈ r.output) ∧
    (∀ e, mkdirAndProbeFailEnv.mkdirFault = some e →
      download_audio mkdirAndProbeFailEnv false "https://youtu.be/a" "downloads"
        false = Except.error e) :=
  c3_try_block_catches mkdirAndProbeFailEnv "https://youtu.be/a" "downloads"
    false rfl rfl

/-- Claim C4: for a URL containing neither `youtube.com` nor `youtu.be`, the
program prints an error and exits with code 1 before invoking the
orchestrator: no probe, no fetch, no directory creation, and the
filesystem state is unchanged. -/
theorem c4_url_validation (env : Env) (d : Bool) (args : Args)
    (h1 : strContains args.url "youtube.com" = false)
    (h2 : strContains args.url "youtu.be" = false) :
    ∃ r, mainRun env d args = Except.ok r ∧ r.exitCode = 1 ∧
      Line.urlError ∈ r.output ∧ r.orchestratorCalled = false ∧
      r.mkdirCalled = false ∧ r.probeCalled = false ∧ r.fetchCalled = false ∧
      r.dirExists = d := by
  refine ⟨{ exitCode := 1, output := [Line.urlError], orchestratorCalled := false,
            dirExists := d, mkdirCalled := false, probeCalled := false,
            fetchCalled := false }, ?_, rfl, by simp, rfl, rfl, rfl, rfl, rfl⟩
  simp [mainRun, h1, h2]

theorem c4_witness :
    strContains "https://example.com/watch?v=abc" "youtube.com" = false ∧
    strContains "https://example.com/watch?v=abc" "youtu.be" = false ∧
    (∃ r, mainRun baseEnv false
        { url := "https://example.com/watch?v=abc", output := "downloads",
          no_confirm := false } = Except.ok r ∧ r.exitCode = 1 ∧
      Line.urlError ∈ r.output ∧ r.orchestratorCalled = false ∧
      r.mkdirCalled = false ∧ r.probeCalled = false ∧ r.fetchCalled = false ∧
      r.dirExists = false) :=
  ⟨by decide, by decide,
    c4_url_validation baseEnv false
      { url := "https://example.com/watch?v=abc", output := "downloads",
        no_confirm := false } (by decide) (by decide)⟩

theorem c7_witness :
    download_audio baseEnv true "https://youtu.be/a" "downloads" false =
      Except.ok singleOkRes ∧
    singleOkRes.dirExists = true ∧
    (∃ r2, download_audio baseEnv singleOkRes.dirExists "https://youtu.be/a"
        "downloads" false = Except.ok r2 ∧
      r2.mkdirCalled = false ∧ r2.dirExists = true) :=
  ⟨rfl, rfl,
    c7_mkdir_idempotent baseEnv baseEnv true "https://youtu.be/a"
      "https://youtu.be/a" "downloads" false false singleOkRes rfl rfl⟩

end MusicDl
